import Mathlib

/-!
Verification development for the DeGiro trading-client library
(`src/index.js`).  The client is embedded shallowly: JavaScript values are
modelled by the inductive `JVal`, thrown `Error(...)` values by `JSError`,
the HTTP transport by a pure function `Transport : Request → Response`
(the transport, cookie parsing and query-string encoding are external
collaborators of the client), and each promise chain by explicit
sequencing in `Except`, together with the list of requests it issued.
The mutable `session` object is threaded explicitly.
-/

namespace DeGiro

/-- JavaScript values as far as the client manipulates them: JSON data,
`undefined`, and objects as insertion-ordered field lists. Numbers are
modelled as integers (every number the client touches is integral). -/
inductive JVal where
  | undef : JVal
  | null : JVal
  | bool : Bool → JVal
  | num : Int → JVal
  | str : String → JVal
  | arr : List JVal → JVal
  | obj : List (String × JVal) → JVal

/-- JavaScript property read `v[k]`: field lookup on objects, `undefined`
otherwise (the client only reads properties of decoded JSON objects). -/
def JVal.get : JVal → String → JVal
  | .obj fs, k =>
    match fs.find? (fun p => p.1 == k) with
    | some p => p.2
    | none => .undef
  | _, _ => JVal.undef

/-- JavaScript truthiness, as used in `if (...)` and `&&` in the source. -/
def JVal.truthy : JVal → Bool
  | .undef => false
  | .null => false
  | .bool b => b
  | .num n => n != 0
  | .str s => s != ""
  | .arr _ => true
  | .obj _ => true

/-- `Array.isArray`. -/
def JVal.isArray : JVal → Bool
  | .arr _ => true
  | _ => false

/-- JavaScript `.length` of an array (the only `.length` the client reads). -/
def JVal.length : JVal → JVal
  | .arr xs => .num xs.length
  | _ => JVal.undef

/-- JavaScript indexing `v[i]` on arrays. -/
def JVal.index : JVal → Nat → JVal
  | .arr xs, i => xs.getD i .undef
  | _, _ => JVal.undef

/-- lodash `isNil`: `null` or `undefined`. -/
def isNil : JVal → Bool
  | .undef => true
  | .null => true
  | _ => false

/-- Default-parameter semantics of `{x = d}` destructuring: the default
applies exactly when the field is `undefined`. -/
def jsDefault (v d : JVal) : JVal :=
  match v with
  | .undef => d
  | w => w

/-- Assignment `o[k] = v` on an insertion-ordered field list: replaces in
place when the key exists, appends otherwise. -/
def setPair : List (String × JVal) → String → JVal → List (String × JVal)
  | [], k, v => [(k, v)]
  | (k0, v0) :: rest, k, v =>
    if k0 = k then (k0, v) :: rest else (k0, v0) :: setPair rest k v

/-- lodash `fromPairs`: builds an object from key/value pairs, later pairs
overwriting earlier ones in place. -/
def fromPairs (ps : List (String × JVal)) : JVal :=
  .obj (ps.foldl (fun acc p => setPair acc p.1 p.2) [])

/-- lodash `omit` (named `omitKeys` because `omit` is reserved in Lean):
drops the listed keys from an object (the client only applies it to
objects built by `fromPairs`). -/
def omitKeys (v : JVal) (ks : List String) : JVal :=
  match v with
  | .obj fs => .obj (fs.filter (fun p => !(ks.contains p.1)))
  | _ => .obj []

/-- Quote a string as a JSON string literal. -/
def jsonQuote (s : String) : String :=
  "\"" ++ String.join (s.toList.map (fun c =>
    if c = '"' then "\\\"" else if c = '\\' then "\\\\" else String.singleton c)) ++ "\""

mutual

/-- `JSON.stringify`: object fields whose value is `undefined` are dropped,
`undefined` array elements serialize as `null`.  A top-level `undefined`
yields the string of the undefined result, as in string concatenation
(`'Bad result: ' + JSON.stringify(data)`). -/
def jsonStringify : JVal → String
  | .undef => "undefined"
  | .null => "null"
  | .bool b => cond b "true" "false"
  | .num n => toString n
  | .str s => jsonQuote s
  | .arr xs => "[" ++ String.intercalate "," (jsonElems xs) ++ "]"
  | .obj fs => "\x7b" ++ String.intercalate "," (jsonProps fs) ++ "\x7d"

def jsonElems : List JVal → List String
  | [] => []
  | v :: rest =>
    (match v with
     | JVal.undef => "null"
     | w => jsonStringify w) :: jsonElems rest

def jsonProps : List (String × JVal) → List String
  | [] => []
  | (k, v) :: rest =>
    match v with
    | JVal.undef => jsonProps rest
    | w => (jsonQuote k ++ ":" ++ jsonStringify w) :: jsonProps rest

end

mutual

/-- JavaScript `String(v)` coercion, as performed by template-literal
interpolation in the request URLs. -/
def jsToString : JVal → String
  | .undef => "undefined"
  | .null => "null"
  | .bool b => cond b "true" "false"
  | .num n => toString n
  | .str s => s
  | .arr xs => String.intercalate "," (jsToStringElems xs)
  | .obj _ => "[object Object]"

def jsToStringElems : List JVal → List String
  | [] => []
  | v :: rest =>
    (match v with
     | JVal.undef => ""
     | JVal.null => ""
     | w => jsToString w) :: jsToStringElems rest

end

/-- A thrown JavaScript error: `jsError m` is `throw Error(m)` with the
message value kept verbatim; `typeError` is a runtime `TypeError`
(property access or iteration on a non-object, never reached by the
claims, all of which guard the relevant shapes). -/
inductive JSError where
  | jsError : JVal → JSError
  | typeError : JSError

/-- JavaScript strict equality `v === 0` against the number literal 0:
true exactly for the number 0 (the only strict comparison the client
performs, in `checkSuccess`). -/
def isNumZero : JVal → Bool
  | .num n => n == 0
  | _ => false

/-- The uniform success check applied to every write response
(`checkSuccess` in the source): `if (res.status !== 0) throw
Error(res.message); return res`. -/
def checkSuccess (res : JVal) : Except JSError JVal :=
  if !(isNumZero (res.get "status")) then
    .error (.jsError (res.get "message"))
  else
    .ok res

/-! ### Constants

The repository's `./constants` module (`Actions`, `OrderTypes`,
`ProductTypes`, `TimeTypes`, `Sort`) is not under `src/`; only `index.js`
is. The members the client uses are modelled from the spec. -/

/-- Modelled from the spec: the `./constants` module is missing from the
sources; the spec names the two action directions buy/sell
(§3 OrderRequest, §4.6). The value is an opaque token. -/
def Actions.buy : JVal := .str "buy"

/-- Modelled from the spec: the sell action direction of the missing
`./constants` module (§3, §4.6). An opaque token distinct from
`Actions.buy`. -/
def Actions.sell : JVal := .str "sell"

/-- Modelled from the spec: `ProductTypes.all`, the search default — the
spec states the default `productType = "all"` (§4.5). -/
def ProductTypes.all : JVal := .str "all"

/-- Modelled from the spec: `ProductTypes.shares`, the order-workflow
default product type (§4.6 / source doc comments). An opaque token. -/
def ProductTypes.shares : JVal := .str "shares"

/-- Modelled from the spec: `TimeTypes.day`, the order-workflow default
time type (source doc comments). An opaque token. -/
def TimeTypes.day : JVal := .str "day"

/-! ### Transport, session and requests -/

def BASE_URL : String := "https://trader.degiro.nl"

/-- One HTTP request as the client hands it to the transport collaborator
(`fetch`): method, fully interpolated URL, headers, and optional body. -/
structure Request where
  method : String := "GET"
  url : String
  headers : List (String × String) := []
  body : Option String := none
deriving DecidableEq

/-- One transport response, at the collaborator boundary: the cookies of
the `set-cookie` header as parsed by the cookie collaborator, and the
JSON-decoded body (`res.json()`). -/
structure Response where
  cookies : List (String × String) := []
  json : JVal := JVal.undef

/-- The HTTP transport collaborator: a pure request/response function.
An operation run against a transport returns the list of requests it
actually issued together with its outcome. -/
abbrev Transport : Type := Request → Response

/-- A trace of the requests an operation issued, in order. -/
abbrev Trace : Type := List Request

/-- Cookie-collaborator read `parseCookies(...).NAME`: the first cookie
with the given name, `undefined` when absent. -/
def cookieGet (cookies : List (String × String)) (name : String) : JVal :=
  match cookies.find? (fun c => c.1 == name) with
  | some c => .str c.2
  | none => JVal.undef

/-- Value serialization of the query-encoding collaborator
(`querystring.stringify`): numbers, strings and booleans stringify,
anything else encodes as the empty string. Percent-escaping of reserved
characters is the collaborator's concern and is not modelled (no
claim-relevant value needs escaping). -/
def qsVal : JVal → String
  | .num n => toString n
  | .str s => s
  | .bool b => cond b "true" "false"
  | _ => ""

/-- Query-encoding collaborator `querystring.stringify`: serializes a
flat field list as `k=v&...` in order. -/
def querystringStringify (opts : List (String × JVal)) : String :=
  String.intercalate "&" (opts.map (fun p => p.1 ++ "=" ++ qsVal p.2))

/-- The mutable `session` object: `{id: sessionId, account}`; both fields
may be `undefined` (fresh client) or pre-seeded from configuration. -/
structure Session where
  id : JVal
  account : JVal

/-! ### The client operations -/

/-- The GET request `getData` issues: the account-update endpoint with
the session embedded in the path and the options as query string. -/
def getDataReq (s : Session) (options : List (String × JVal)) : Request :=
  { method := "GET",
    url := BASE_URL ++ "/trading/secure/v5/update/" ++ jsToString s.account
      ++ ";jsessionid=" ++ jsToString s.id ++ "?" ++ querystringStringify options }

/-- `getData(options)`: GET to the update endpoint, body decoded as JSON.
No success-envelope check. -/
def getData (t : Transport) (s : Session) (options : List (String × JVal)) :
    Trace × JVal :=
  let req := getDataReq s options
  ([req], (t req).json)

/-- The flattening `getCashFunds` applies to one cash-funds entry:
`omit(fromPairs(value.map(({name, value}) => [name, value])), ['handling',
'currencyCode'])`. A non-array inner `value` is a runtime `TypeError` in
the source (`value.map` on a non-array). -/
def cashEntry (entry : JVal) : Except JSError JVal :=
  match entry.get "value" with
  | .arr kvs =>
    .ok (omitKeys (fromPairs (kvs.map (fun kv => (jsToString (kv.get "name"), kv.get "value"))))
      ["handling", "currencyCode"])
  | _ => .error .typeError

/-- `getCashFunds()`: reads `{cashFunds: 0}`, checks
`data.cashFunds && Array.isArray(data.cashFunds.value)`, flattens each
entry, and otherwise throws `Error('Bad result: ' + JSON.stringify(data))`. -/
def getCashFunds (t : Transport) (s : Session) : Trace × Except JSError JVal :=
  let (tr, data) := getData t s [("cashFunds", .num 0)]
  if (data.get "cashFunds").truthy && ((data.get "cashFunds").get "value").isArray then
    (tr,
      (match (data.get "cashFunds").get "value" with
        | .arr entries => entries.mapM cashEntry
        | _ => .error .typeError).map
        (fun funds => JVal.obj [("cashFunds", .arr funds)]))
  else
    (tr, .error (.jsError (.str ("Bad result: " ++ jsonStringify data))))

/-- The GET request `updateClientInfo` issues. -/
def updateClientInfoReq (s : Session) : Request :=
  { method := "GET",
    url := BASE_URL ++ "/pa/secure/client?sessionId=" ++ jsToString s.id }

/-- `updateClientInfo()`: GET the client profile and store its
`intAccount` field into `session.account`. -/
def updateClientInfo (t : Transport) (s : Session) : Trace × Session :=
  let req := updateClientInfoReq s
  ([req], { s with account := (t req).json.get "intAccount" })

/-- The POST request `login` issues: URL-encoded credentials, redirects
not followed (a transport option, not part of the request data). -/
def loginReq (username password : JVal) : Request :=
  { method := "POST",
    url := BASE_URL ++ "/login/securityCheck",
    headers := [("Content-Type", "application/x-www-form-urlencoded")],
    body := some (querystringStringify
      [("j_username", username), ("j_password", password)]) }

/-- `login()`: POST the credentials; assign
`session.id = cookies.JSESSIONID` (before any check); throw
`Error('Login error')` when the assigned id is falsy; then
`updateClientInfo`, then resolve with the session. Returns the trace, the
final session state, and the outcome. -/
def login (t : Transport) (username password : JVal) (s : Session) :
    Trace × Session × Except JSError Session :=
  let req := loginReq username password
  let s1 := { s with id := cookieGet (t req).cookies "JSESSIONID" }
  if !s1.id.truthy then
    ([req], s1, .error (.jsError (.str "Login error")))
  else
    let (tr2, s2) := updateClientInfo t s1
    ([req] ++ tr2, s2, .ok s2)

/-- The option list `searchProduct` builds, in source order, with the
destructuring defaults applied: `{searchText, productType =
ProductTypes.all, sortColumn, sortType, limit = 7, offset = 0}`. -/
def searchQueryOptions (opts : JVal) : List (String × JVal) :=
  [("searchText", opts.get "text"),
   ("productType", jsDefault (opts.get "productType") ProductTypes.all),
   ("sortColumn", opts.get "sortColumn"),
   ("sortType", opts.get "sortType"),
   ("limit", jsDefault (opts.get "limit") (.num 7)),
   ("offset", jsDefault (opts.get "offset") (.num 0))]

/-- `omitBy(options, isNil)`: the outgoing query fields, with every
`null`/`undefined` field omitted entirely. -/
def searchProductQuery (opts : JVal) : List (String × JVal) :=
  (searchQueryOptions opts).filter (fun p => !(isNil p.2))

/-- The GET request `searchProduct` issues. -/
def searchProductReq (s : Session) (opts : JVal) : Request :=
  { method := "GET",
    url := BASE_URL ++ "/product_search/secure/v4/product/lookup?intAccount="
      ++ jsToString s.account ++ "&sessionId=" ++ jsToString s.id ++ "&"
      ++ querystringStringify (searchProductQuery opts) }

/-- `searchProduct(options)`: GET to the lookup endpoint, body decoded as
JSON. No success-envelope check. -/
def searchProduct (t : Transport) (s : Session) (opts : JVal) : Trace × JVal :=
  let req := searchProductReq s opts
  ([req], (t req).json)

/-- The POST request `checkOrder` issues: JSON-serialized order body. -/
def checkOrderReq (s : Session) (order : JVal) : Request :=
  { method := "POST",
    url := BASE_URL ++ "/trading/secure/v5/checkOrder;jsessionid="
      ++ jsToString s.id ++ "?intAccount=" ++ jsToString s.account
      ++ "&sessionId=" ++ jsToString s.id,
    headers := [("Content-Type", "application/json;charset=UTF-8")],
    body := some (jsonStringify order) }

/-- `checkOrder(order)`: POST the order, apply `checkSuccess`, resolve
with `{order, confirmationId: json.confirmationId}`. -/
def checkOrder (t : Transport) (s : Session) (order : JVal) :
    Trace × Except JSError JVal :=
  let req := checkOrderReq s order
  ([req],
    (checkSuccess (t req).json).map (fun json =>
      JVal.obj [("order", order), ("confirmationId", json.get "confirmationId")]))

/-- The POST request `confirmOrder` issues: the confirmation id in the
path, the echoed order as JSON body. -/
def confirmOrderReq (s : Session) (order confirmationId : JVal) : Request :=
  { method := "POST",
    url := BASE_URL ++ "/trading/secure/v5/order/" ++ jsToString confirmationId
      ++ ";jsessionid=" ++ jsToString s.id ++ "?intAccount="
      ++ jsToString s.account ++ "&sessionId=" ++ jsToString s.id,
    headers := [("Content-Type", "application/json;charset=UTF-8")],
    body := some (jsonStringify order) }

/-- `confirmOrder({order, confirmationId})`: POST the echoed order, apply
`checkSuccess`, resolve with `{orderId: json.orderId}`. -/
def confirmOrder (t : Transport) (s : Session) (token : JVal) :
    Trace × Except JSError JVal :=
  let req := confirmOrderReq s (token.get "order") (token.get "confirmationId")
  ([req],
    (checkSuccess (t req).json).map (fun json =>
      JVal.obj [("orderId", json.get "orderId")]))

/-- `returnFirstProductResult(result)`: the first product of a search
response when `Array.isArray(result.data) && result.data.length`, else
`throw new Error('Product not found')`. -/
def returnFirstProductResult (result : JVal) : Except JSError JVal :=
  if (result.get "data").isArray && ((result.get "data").length).truthy then
    .ok ((result.get "data").index 0)
  else
    .error (.jsError (.str "Product not found"))

/-- The search options both `buy` and `sell` build from their input:
`{text: productSymbol, productType, limit: 1}` with `productType`
defaulting to `ProductTypes.shares`. -/
def orderSearchOpts (opts : JVal) : JVal :=
  .obj [("text", opts.get "productSymbol"),
        ("productType", jsDefault (opts.get "productType") ProductTypes.shares),
        ("limit", .num 1)]

/-- The order body both `buy` and `sell` build from their input and the
resolved product id: `{buysell, orderType, productId: id, size, timeType,
price, stopPrice}` with `timeType` defaulting to `TimeTypes.day`. -/
def orderFor (buysell : JVal) (opts productId : JVal) : JVal :=
  .obj [("buysell", buysell),
        ("orderType", opts.get "orderType"),
        ("productId", productId),
        ("size", opts.get "size"),
        ("timeType", jsDefault (opts.get "timeType") TimeTypes.day),
        ("price", opts.get "price"),
        ("stopPrice", opts.get "stopPrice")]

/-- `buy(options)`: searchProduct → returnFirstProductResult → checkOrder
with `buysell: Actions.buy` → confirmOrder, each step short-circuiting on
a thrown error exactly as the promise chain does. -/
def buy (t : Transport) (s : Session) (opts : JVal) :
    Trace × Except JSError JVal :=
  let (tr1, result) := searchProduct t s (orderSearchOpts opts)
  match returnFirstProductResult result with
  | .error e => (tr1, .error e)
  | .ok product =>
    let (tr2, checked) := checkOrder t s (orderFor Actions.buy opts (product.get "id"))
    match checked with
    | .error e => (tr1 ++ tr2, .error e)
    | .ok token =>
      let (tr3, confirmed) := confirmOrder t s token
      (tr1 ++ tr2 ++ tr3, confirmed)

/-- `sell(options)`: the duplicated workflow of the source, identical to
`buy` except that the order carries `buysell: Actions.sell`. -/
def sell (t : Transport) (s : Session) (opts : JVal) :
    Trace × Except JSError JVal :=
  let (tr1, result) := searchProduct t s (orderSearchOpts opts)
  match returnFirstProductResult result with
  | .error e => (tr1, .error e)
  | .ok product =>
    let (tr2, checked) := checkOrder t s (orderFor Actions.sell opts (product.get "id"))
    match checked with
    | .error e => (tr1 ++ tr2, .error e)
    | .ok token =>
      let (tr3, confirmed) := confirmOrder t s token
      (tr1 ++ tr2 ++ tr3, confirmed)

/-- The order workflow as the spec words it (§4.6): one state machine
`Searching → Checking → Confirming → Done` parameterized only by the
action direction. Stated from the spec for the refinement claim that
`buy` and `sell` are this workflow at the two directions. -/
def placeOrder (buysell : JVal) (t : Transport) (s : Session) (opts : JVal) :
    Trace × Except JSError JVal :=
  let (tr1, result) := searchProduct t s (orderSearchOpts opts)
  match returnFirstProductResult result with
  | .error e => (tr1, .error e)
  | .ok product =>
    let (tr2, checked) := checkOrder t s (orderFor buysell opts (product.get "id"))
    match checked with
    | .error e => (tr1 ++ tr2, .error e)
    | .ok token =>
      let (tr3, confirmed) := confirmOrder t s token
      (tr1 ++ tr2 ++ tr3, confirmed)

/-! ### Claims -/

/-- C1: For every write-call response object, if its numeric `status`
field equals 0 the success check returns the response payload unchanged;
if `status` is any other value it fails with an error carrying exactly
the response's `message` field, verbatim. -/
theorem checkSuccess_status_spec (res : JVal) :
    (res.get "status" = JVal.num 0 → checkSuccess res = Except.ok res) ∧
    (res.get "status" ≠ JVal.num 0 →
      checkSuccess res = Except.error (JSError.jsError (res.get "message"))) := by
  constructor
  · intro h
    rw [checkSuccess, h]
    rfl
  · intro h
    have hz : isNumZero (res.get "status") = false := by
      cases hs : res.get "status" <;> simp_all [isNumZero]
    rw [checkSuccess, hz]
    rfl

/-- Witness for C1: both branches at concrete responses. -/
theorem checkSuccess_status_spec_witness :
    checkSuccess (JVal.obj [("status", JVal.num 0), ("total", JVal.num 7)]) =
      Except.ok (JVal.obj [("status", JVal.num 0), ("total", JVal.num 7)]) ∧
    checkSuccess (JVal.obj [("status", JVal.num 1),
        ("message", JVal.str "insufficient funds")]) =
      Except.error (JSError.jsError (JVal.str "insufficient funds")) :=
  ⟨(checkSuccess_status_spec _).1 rfl,
   (checkSuccess_status_spec _).2 (by simp [JVal.get])⟩

/-- C3: when the login response carries the session cookie (a truthy
token) and the profile call yields an account identifier, `login` sets
both the session token and the account identifier before resolving; when
the response carries no session cookie, it fails with the login error
without mutating the account field. -/
theorem login_sets_session_spec (t : Transport) (u p : JVal) (s : Session) :
    (∀ tok : String, tok ≠ "" →
      cookieGet (t (loginReq u p)).cookies "JSESSIONID" = JVal.str tok →
      ∀ acc : Int,
        (t (updateClientInfoReq { s with id := JVal.str tok })).json.get "intAccount"
          = JVal.num acc →
        login t u p s =
          ([loginReq u p, updateClientInfoReq { s with id := JVal.str tok }],
           { id := JVal.str tok, account := JVal.num acc },
           Except.ok { id := JVal.str tok, account := JVal.num acc })) ∧
    (cookieGet (t (loginReq u p)).cookies "JSESSIONID" = JVal.undef →
      login t u p s =
        ([loginReq u p], { id := JVal.undef, account := s.account },
         Except.error (JSError.jsError (JVal.str "Login error")))) := by
  constructor
  · intro tok htok hcookie acc hacc
    have htruthy : (JVal.str tok).truthy = true := by
      simp [JVal.truthy, htok]
    simp only [login, updateClientInfo, hcookie, htruthy, Bool.not_true,
      Bool.false_eq_true, if_false, hacc, List.singleton_append]
  · intro hcookie
    rw [login, hcookie]
    rfl

/-- A transport for the valid-login scenario: the login request yields
the session cookie, every other request yields a profile body. -/
def tLoginOk : Transport := fun req =>
  if req = loginReq (JVal.str "u") (JVal.str "p") then
    { cookies := [("JSESSIONID", "tok1")], json := JVal.undef }
  else
    { cookies := [], json := JVal.obj [("intAccount", JVal.num 99)] }

/-- A transport whose responses never carry cookies. -/
def tNoCookie : Transport := fun _ => { cookies := [], json := JVal.undef }

/-- Witness for C3: both branches at concrete transports. -/
theorem login_sets_session_spec_witness :
    login tLoginOk
      (JVal.str "u") (JVal.str "p") { id := JVal.undef, account := JVal.undef } =
      ([loginReq (JVal.str "u") (JVal.str "p"),
        updateClientInfoReq { id := JVal.str "tok1", account := JVal.undef }],
       { id := JVal.str "tok1", account := JVal.num 99 },
       Except.ok { id := JVal.str "tok1", account := JVal.num 99 }) ∧
    login tNoCookie
      (JVal.str "u") (JVal.str "p") { id := JVal.undef, account := JVal.num 5 } =
      ([loginReq (JVal.str "u") (JVal.str "p")],
       { id := JVal.undef, account := JVal.num 5 },
       Except.error (JSError.jsError (JVal.str "Login error"))) :=
  ⟨(login_sets_session_spec tLoginOk (JVal.str "u") (JVal.str "p")
      { id := JVal.undef, account := JVal.undef }).1 "tok1" (by decide) rfl 99 rfl,
   (login_sets_session_spec tNoCookie (JVal.str "u") (JVal.str "p")
      { id := JVal.undef, account := JVal.num 5 }).2 rfl⟩

/-- C9: a login response with no session cookie overwrites the session
token with `undefined` before failing, so a pre-seeded token supplied at
construction is clobbered by the failed login, while the account field is
left unchanged. -/
theorem login_no_cookie_clobbers_token (t : Transport) (u p : JVal) (s : Session)
    (h : cookieGet (t (loginReq u p)).cookies "JSESSIONID" = JVal.undef) :
    login t u p s =
      ([loginReq u p], { id := JVal.undef, account := s.account },
       Except.error (JSError.jsError (JVal.str "Login error"))) := by
  rw [login, h]
  rfl

/-- Witness for C9: a pre-seeded session id is clobbered by a cookie-less
login response. -/
theorem login_no_cookie_clobbers_token_witness :
    login tNoCookie (JVal.str "u") (JVal.str "p")
      { id := JVal.str "preseeded", account := JVal.num 7 } =
      ([loginReq (JVal.str "u") (JVal.str "p")],
       { id := JVal.undef, account := JVal.num 7 },
       Except.error (JSError.jsError (JVal.str "Login error"))) :=
  login_no_cookie_clobbers_token tNoCookie (JVal.str "u") (JVal.str "p")
    { id := JVal.str "preseeded", account := JVal.num 7 } rfl

/-- The cash-funds payload of the C6 scenario. -/
def cashFundsInput : JVal :=
  .obj [("cashFunds", .obj [("value", .arr [
    .obj [("value", .arr [
      .obj [("name", .str "EUR"), ("value", .num 0)],
      .obj [("name", .str "handling"), ("value", .num 1)]])]])])]

/-- C6: on the scenario input, `getCashFunds` returns
`{cashFunds: [{EUR: 0}]}` with the `handling` (and any `currencyCode`)
field absent from each entry; on a payload missing the `cashFunds` field,
or whose `cashFunds.value` is not a sequence, it fails with the
malformed-response error. -/
theorem getCashFunds_spec (t : Transport) (s : Session) :
    ((t (getDataReq s [("cashFunds", JVal.num 0)])).json = cashFundsInput →
      getCashFunds t s =
        ([getDataReq s [("cashFunds", JVal.num 0)]],
         Except.ok (JVal.obj [("cashFunds", JVal.arr [JVal.obj [("EUR", JVal.num 0)]])]))) ∧
    (∀ d : JVal, (t (getDataReq s [("cashFunds", JVal.num 0)])).json = d →
      (d.get "cashFunds" = JVal.undef ∨
        ((d.get "cashFunds").get "value").isArray = false) →
      getCashFunds t s =
        ([getDataReq s [("cashFunds", JVal.num 0)]],
         Except.error (JSError.jsError
           (JVal.str ("Bad result: " ++ jsonStringify d))))) := by
  constructor
  · intro h
    simp only [getCashFunds, getData, h]
    rfl
  · intro d hd hcase
    have hguard : ((d.get "cashFunds").truthy
        && ((d.get "cashFunds").get "value").isArray) = false := by
      rcases hcase with h1 | h2
      · rw [h1]; rfl
      · rw [h2, Bool.and_false]
    simp only [getCashFunds, getData, hd, hguard, Bool.false_eq_true, if_false]

/-- Witness for C6: both branches at concrete transports. -/
theorem getCashFunds_spec_witness :
    getCashFunds (fun _ => { json := cashFundsInput })
        { id := JVal.str "SID1", account := JVal.num 42 } =
      ([getDataReq { id := JVal.str "SID1", account := JVal.num 42 }
          [("cashFunds", JVal.num 0)]],
       Except.ok (JVal.obj [("cashFunds", JVal.arr [JVal.obj [("EUR", JVal.num 0)]])])) ∧
    getCashFunds (fun _ => { json := JVal.obj [("portfolio", JVal.num 1)] })
        { id := JVal.str "SID1", account := JVal.num 42 } =
      ([getDataReq { id := JVal.str "SID1", account := JVal.num 42 }
          [("cashFunds", JVal.num 0)]],
       Except.error (JSError.jsError
         (JVal.str ("Bad result: " ++ jsonStringify (JVal.obj [("portfolio", JVal.num 1)]))))) :=
  ⟨(getCashFunds_spec (fun _ => { json := cashFundsInput })
      { id := JVal.str "SID1", account := JVal.num 42 }).1 rfl,
   (getCashFunds_spec (fun _ => { json := JVal.obj [("portfolio", JVal.num 1)] })
      { id := JVal.str "SID1", account := JVal.num 42 }).2
      (JVal.obj [("portfolio", JVal.num 1)]) rfl (Or.inl rfl)⟩

/-- C7: `searchProduct` applies the defaults `productType = "all"`,
`limit = 7`, `offset = 0`; when `sortColumn`/`sortType` are not supplied
those fields are omitted entirely from the outgoing query; no `null` or
`undefined` parameter ever appears; and the issued request carries exactly
this query. -/
theorem searchProduct_query_spec (t : Transport) (s : Session) (opts : JVal) :
    ((opts.get "productType" = JVal.undef → opts.get "limit" = JVal.undef →
      opts.get "offset" = JVal.undef → opts.get "sortColumn" = JVal.undef →
      opts.get "sortType" = JVal.undef → isNil (opts.get "text") = false →
      searchProductQuery opts =
        [("searchText", opts.get "text"), ("productType", ProductTypes.all),
         ("limit", JVal.num 7), ("offset", JVal.num 0)])) ∧
    (opts.get "sortColumn" = JVal.undef → opts.get "sortType" = JVal.undef →
      ∀ p ∈ searchProductQuery opts, p.1 ≠ "sortColumn" ∧ p.1 ≠ "sortType") ∧
    (∀ p ∈ searchProductQuery opts, isNil p.2 = false) ∧
    searchProduct t s opts =
      ([searchProductReq s opts], (t (searchProductReq s opts)).json) := by
  refine ⟨?_, ?_, ?_, rfl⟩
  · intro hpt hlim hoff hsc hst htext
    simp only [searchProductQuery, searchQueryOptions, hpt, hlim, hoff, hsc, hst,
      List.filter_cons, List.filter_nil, htext]
    rfl
  · intro hsc hst p hp
    unfold searchProductQuery searchQueryOptions at hp
    rw [hsc, hst] at hp
    simp only [List.mem_filter, List.mem_cons, List.not_mem_nil, or_false] at hp
    rcases hp with ⟨hmem, hpred⟩
    rcases hmem with h | h | h | h | h | h <;> subst h <;>
      simp_all [isNil]
  · intro p hp
    rw [searchProductQuery, List.mem_filter] at hp
    simpa using hp.2

/-- Witness for C7. -/
theorem searchProduct_query_spec_witness :
    searchProductQuery (JVal.obj [("text", JVal.str "AAPL")]) =
      [("searchText", JVal.str "AAPL"), ("productType", ProductTypes.all),
       ("limit", JVal.num 7), ("offset", JVal.num 0)] ∧
    (∀ p ∈ searchProductQuery (JVal.obj [("text", JVal.str "AAPL"), ("limit", JVal.num 1)]),
      p.1 ≠ "sortColumn" ∧ p.1 ≠ "sortType") ∧
    searchProduct (fun _ => { json := JVal.undef })
        { id := JVal.str "SID1", account := JVal.num 42 }
        (JVal.obj [("text", JVal.str "AAPL")]) =
      ([searchProductReq { id := JVal.str "SID1", account := JVal.num 42 }
          (JVal.obj [("text", JVal.str "AAPL")])], JVal.undef) :=
  ⟨(searchProduct_query_spec (fun _ => { json := JVal.undef })
      { id := JVal.str "SID1", account := JVal.num 42 }
      (JVal.obj [("text", JVal.str "AAPL")])).1 rfl rfl rfl rfl rfl rfl,
   (searchProduct_query_spec (fun _ => { json := JVal.undef })
      { id := JVal.str "SID1", account := JVal.num 42 }
      (JVal.obj [("text", JVal.str "AAPL"), ("limit", JVal.num 1)])).2.1 rfl rfl,
   (searchProduct_query_spec (fun _ => { json := JVal.undef })
      { id := JVal.str "SID1", account := JVal.num 42 }
      (JVal.obj [("text", JVal.str "AAPL")])).2.2.2⟩

/-! ### Order-workflow scenario fixtures -/

/-- The session of the order-workflow scenarios. -/
def sessionC : Session := { id := JVal.str "SID1", account := JVal.num 42 }

/-- The `buy`/`sell` options of the order-workflow scenarios. -/
def orderOptsC : JVal :=
  .obj [("orderType", JVal.num 0), ("productSymbol", JVal.str "AAPL"),
        ("size", JVal.num 1), ("price", JVal.num 100)]

/-- The single product the scenario search returns. -/
def productC : JVal := .obj [("id", JVal.str "X1")]

/-- The scenario search response: one product with id `"X1"`. -/
def searchRespC : JVal := .obj [("data", JVal.arr [productC])]

/-- The order body the scenario `buy` builds. -/
def orderBodyC : JVal := orderFor Actions.buy orderOptsC (JVal.str "X1")

/-- The scenario search request. -/
def searchReqC : Request := searchProductReq sessionC (orderSearchOpts orderOptsC)

/-- The scenario check request. -/
def checkReqC : Request := checkOrderReq sessionC orderBodyC

/-- The scenario confirm request. -/
def confirmReqC : Request := confirmOrderReq sessionC orderBodyC (JVal.str "C1")

/-- The scenario check response on success. -/
def checkRespOkC : JVal :=
  .obj [("status", JVal.num 0), ("confirmationId", JVal.str "C1")]

/-- The scenario confirm response on success. -/
def confirmRespOkC : JVal :=
  .obj [("status", JVal.num 0), ("orderId", JVal.str "O1")]

/-- The scenario check response on rejection. -/
def checkRespFailC : JVal :=
  .obj [("status", JVal.num 1), ("message", JVal.str "insufficient funds")]

/-- C2: in the success scenario (search returns one product with id
`"X1"`, check responds `{status:0, confirmationId:"C1"}`, confirm
responds `{status:0, orderId:"O1"}`), `buy` issues exactly the
search → check → confirm requests, resolves to `{orderId:"O1"}`, and the
JSON body sent to the confirm endpoint equals the body sent to the check
endpoint. -/
theorem buy_success_scenario (t : Transport)
    (h1 : t searchReqC = { cookies := [], json := searchRespC })
    (h2 : t checkReqC = { cookies := [], json := checkRespOkC })
    (h3 : t confirmReqC = { cookies := [], json := confirmRespOkC }) :
    buy t sessionC orderOptsC =
      ([searchReqC, checkReqC, confirmReqC],
       Except.ok (JVal.obj [("orderId", JVal.str "O1")])) ∧
    confirmReqC.body = checkReqC.body := by
  refine ⟨?_, rfl⟩
  simp only [searchReqC, checkReqC, confirmReqC, orderBodyC] at h1 h2 h3
  simp [orderSearchOpts, orderFor, orderOptsC, jsDefault, JVal.get, productC,
    searchRespC, checkRespOkC, confirmRespOkC] at h1 h2 h3
  simp [buy, searchProduct, checkOrder, confirmOrder, returnFirstProductResult,
    checkSuccess, searchRespC, productC, orderSearchOpts, orderFor, jsDefault,
    JVal.get, JVal.isArray, JVal.length, JVal.truthy, JVal.index, isNumZero,
    Except.map, orderOptsC, h1, h2, h3, checkRespOkC, confirmRespOkC]
  exact ⟨rfl, rfl, rfl⟩

/-- The success-scenario transport: search yields the one product, check
confirms, confirm yields the order id. -/
def tOrderOk : Transport := fun req =>
  if req = searchReqC then { cookies := [], json := searchRespC }
  else if req = checkReqC then { cookies := [], json := checkRespOkC }
  else if req = confirmReqC then { cookies := [], json := confirmRespOkC }
  else { cookies := [], json := JVal.undef }

/-- Witness for C2: the success scenario at the concrete transport. -/
theorem buy_success_scenario_witness :
    buy tOrderOk sessionC orderOptsC =
      ([searchReqC, checkReqC, confirmReqC],
       Except.ok (JVal.obj [("orderId", JVal.str "O1")])) ∧
    confirmReqC.body = checkReqC.body :=
  buy_success_scenario tOrderOk rfl rfl rfl

/-- C4: whenever the product search of the order workflow returns an
empty data sequence, `buy` fails with the product-not-found error and the
check and confirm calls are never issued (only the search request is in
the trace). -/
theorem buy_empty_search_spec (t : Transport) (s : Session) (opts : JVal)
    (h : (t (searchProductReq s (orderSearchOpts opts))).json =
      JVal.obj [("data", JVal.arr [])]) :
    buy t s opts =
      ([searchProductReq s (orderSearchOpts opts)],
       Except.error (JSError.jsError (JVal.str "Product not found"))) := by
  simp only [buy, searchProduct, h]
  rfl

/-- Witness for C4: a transport whose search response is `{data:[]}`. -/
theorem buy_empty_search_spec_witness :
    buy (fun _ => { json := JVal.obj [("data", JVal.arr [])] }) sessionC orderOptsC =
      ([searchProductReq sessionC (orderSearchOpts orderOptsC)],
       Except.error (JSError.jsError (JVal.str "Product not found"))) :=
  buy_empty_search_spec (fun _ => { json := JVal.obj [("data", JVal.arr [])] })
    sessionC orderOptsC rfl

/-- C5: whenever the scenario check call responds
`{status:1, message:"insufficient funds"}`, `buy` fails with an error
carrying exactly `"insufficient funds"` and the confirm call is never
invoked (the trace stops at the check request). -/
theorem buy_check_rejected_scenario (t : Transport)
    (h1 : t searchReqC = { cookies := [], json := searchRespC })
    (h2 : t checkReqC = { cookies := [], json := checkRespFailC }) :
    buy t sessionC orderOptsC =
      ([searchReqC, checkReqC],
       Except.error (JSError.jsError (JVal.str "insufficient funds"))) := by
  simp only [searchReqC, checkReqC, orderBodyC] at h1 h2
  simp [orderSearchOpts, orderFor, orderOptsC, jsDefault, JVal.get, productC,
    searchRespC, checkRespFailC] at h1 h2
  simp [buy, searchProduct, checkOrder, returnFirstProductResult,
    checkSuccess, searchRespC, productC, orderSearchOpts, orderFor, jsDefault,
    JVal.get, JVal.isArray, JVal.length, JVal.truthy, JVal.index, isNumZero,
    Except.map, orderOptsC, h1, h2, checkRespFailC]
  exact ⟨rfl, rfl⟩

/-- The rejected-check transport: search yields the one product, the
check call is rejected with a message. -/
def tOrderRejected : Transport := fun req =>
  if req = checkReqC then { cookies := [], json := checkRespFailC }
  else { cookies := [], json := searchRespC }

/-- Witness for C5: the rejected-check scenario at the concrete
transport. -/
theorem buy_check_rejected_scenario_witness :
    buy tOrderRejected sessionC orderOptsC =
      ([searchReqC, checkReqC],
       Except.error (JSError.jsError (JVal.str "insufficient funds"))) :=
  buy_check_rejected_scenario tOrderRejected rfl rfl

/-- C8: `buy` and `sell` are the same workflow parameterized only by the
action direction — each equals `placeOrder` at its direction on every
input, and the order bodies they build are identical except for the
`buysell` field. -/
theorem buy_sell_shared_workflow :
    (∀ (t : Transport) (s : Session) (opts : JVal),
      buy t s opts = placeOrder Actions.buy t s opts ∧
      sell t s opts = placeOrder Actions.sell t s opts) ∧
    (∀ opts productId : JVal,
      (orderFor Actions.buy opts productId).get "buysell" = Actions.buy ∧
      (orderFor Actions.sell opts productId).get "buysell" = Actions.sell ∧
      ∀ k : String, k ≠ "buysell" →
        (orderFor Actions.buy opts productId).get k =
          (orderFor Actions.sell opts productId).get k) := by
  refine ⟨fun t s opts => ⟨rfl, rfl⟩, fun opts productId => ⟨rfl, rfl, ?_⟩⟩
  intro k hk
  have hbk : ("buysell" == k) = false := by
    simp [Ne.symm hk]
  simp only [orderFor, JVal.get, List.find?, hbk]

/-- Witness for C8 (the inner frame condition has a hypothesis): at a
concrete transport, session, options and a concrete non-action key. -/
theorem buy_sell_shared_workflow_witness :
    buy (fun _ => { json := JVal.undef }) sessionC orderOptsC =
      placeOrder Actions.buy (fun _ => { json := JVal.undef }) sessionC orderOptsC ∧
    (orderFor Actions.buy orderOptsC (JVal.str "X1")).get "size" =
      (orderFor Actions.sell orderOptsC (JVal.str "X1")).get "size" :=
  ⟨(buy_sell_shared_workflow.1 (fun _ => { json := JVal.undef }) sessionC orderOptsC).1,
   (buy_sell_shared_workflow.2 orderOptsC (JVal.str "X1")).2.2 "size" (by decide)⟩

/-- C10: a product-search result whose `data` field is absent or not an
array fails the first-result extraction with the same product-not-found
error as an empty result, so `buy` and `sell` report a malformed search
response as product-not-found. -/
theorem malformed_search_product_not_found (result : JVal)
    (h : result.get "data" = JVal.undef ∨ (result.get "data").isArray = false) :
    returnFirstProductResult result =
      Except.error (JSError.jsError (JVal.str "Product not found")) ∧
    ∀ (t : Transport) (s : Session) (opts : JVal),
      (t (searchProductReq s (orderSearchOpts opts))).json = result →
      (buy t s opts).2 = Except.error (JSError.jsError (JVal.str "Product not found")) ∧
      (sell t s opts).2 = Except.error (JSError.jsError (JVal.str "Product not found")) := by
  have hfirst : returnFirstProductResult result =
      Except.error (JSError.jsError (JVal.str "Product not found")) := by
    have hguard : ((result.get "data").isArray
        && ((result.get "data").length).truthy) = false := by
      rcases h with h1 | h1
      · rw [h1]; rfl
      · rw [h1, Bool.false_and]
    simp only [returnFirstProductResult, hguard, Bool.false_eq_true, if_false]
  refine ⟨hfirst, fun t s opts hjson => ⟨?_, ?_⟩⟩
  · simp only [buy, searchProduct, hjson, hfirst]
  · simp only [sell, searchProduct, hjson, hfirst]

/-- Witness for C10: a search response with a non-array `data` field. -/
theorem malformed_search_product_not_found_witness :
    returnFirstProductResult (JVal.obj [("data", JVal.str "oops")]) =
      Except.error (JSError.jsError (JVal.str "Product not found")) ∧
    (buy (fun _ => { json := JVal.obj [("data", JVal.str "oops")] })
        sessionC orderOptsC).2 =
      Except.error (JSError.jsError (JVal.str "Product not found")) :=
  ⟨(malformed_search_product_not_found (JVal.obj [("data", JVal.str "oops")])
      (Or.inr rfl)).1,
   ((malformed_search_product_not_found (JVal.obj [("data", JVal.str "oops")])
      (Or.inr rfl)).2
      (fun _ => { json := JVal.obj [("data", JVal.str "oops")] })
      sessionC orderOptsC rfl).1⟩

end DeGiro
